import Mathlib

/-!
Shallow embedding of the two command-line utilities of the repository
`open-diet-data`:

* `scripts/generate-embeddings.py` — builds text embeddings from a USDA
  food-nutrition CSV export (remote OpenAI provider or local model);
* `scripts/query-nih-dsld.py` — queries the NIH DSLD REST API and prints
  formatted or raw-JSON results.

Modelling conventions:

* A pandas row / JSON product dictionary is a total function
  `String → Option PyVal`; `none` covers both an absent column and a
  NaN value (both fail `pd.notna`, and `dict.get` returns the default).
* Python values relevant to the scripts are strings and numbers
  (`PyVal`); numbers are modelled as rationals.  The decimal rendering
  that Python `str()` applies to a number is abstracted by `toString`
  on the rational; no claim depends on it.
* Code that can raise a Python exception is embedded in
  `Except PyError _`; uncaught exceptions terminate the process with
  exit status 1, which the pipeline model `runMain` records.
* Network traffic is an oracle parameter: the embedding service is a
  function from a batch of texts to a list of vectors, and the model
  additionally records the list of batches actually sent.
-/

/-- A Python value as the two scripts see one: a string or a number
(numbers modelled as rationals). -/
inductive PyVal where
  | str (s : String)
  | num (q : ℚ)
deriving DecidableEq

/-- The Python exceptions the embedded code can raise: `TypeError`
(comparing or joining a string where a number or vice versa is needed)
and `IndexError` (list index out of range). -/
inductive PyError where
  | typeError
  | indexError
deriving DecidableEq

/-- Python `str()` / f-string conversion.  Exact decimal rendering of a
number is abstracted; no claim depends on it. -/
def pyStr : PyVal → String
  | PyVal.str s => s
  | PyVal.num q => toString q

/-- A row of the loaded dataframe (equally, a JSON object): a lookup
from column name to value, `none` for absent-or-NaN. -/
def FoodRow : Type := String → Option PyVal

/-- The row with every field missing. -/
def emptyRow : FoodRow := fun _ => none

/-- Round half to even, as Python float-to-decimal formatting does on
the exact value. -/
def rhe (q : ℚ) : ℤ :=
  let f := ⌊q⌋
  let r := q - f
  if r < 1 / 2 then f
  else if 1 / 2 < r then f + 1
  else if f % 2 = 0 then f else f + 1

/-- Two decimal digits with a leading zero. -/
def pad2 (m : ℕ) : String :=
  if m < 10 then "0" ++ toString m else toString m

/-- Python `f-string` formatting with `:.2f`: round to a hundredth and
print with exactly two decimals (a negative value that rounds to zero
keeps its sign, as Python prints `-0.00`). -/
def fmt2 (q : ℚ) : String :=
  let n := rhe (q * 100)
  (if n < 0 ∨ (q < 0 ∧ n = 0) then "-" else "")
    ++ toString (n.natAbs / 100) ++ "." ++ pad2 (n.natAbs % 100)

/-- One nutrient entry of `create_food_text`:
`f"{name}: {row[col]:.2f}g/100g"`. -/
def fmtEntry (name : String) (q : ℚ) : String :=
  name ++ ": " ++ fmt2 q ++ "g/100g"

/-- The fixed nine-element priority list `nutrient_cols` of
`generate-embeddings.py` (column name, display name). -/
def nutrient_cols : List (String × String) :=
  [("protein", "protein"),
   ("total_lipid_fat", "fat"),
   ("carbohydrate_by_difference", "carbs"),
   ("calcium_ca", "calcium"),
   ("iron_fe", "iron"),
   ("magnesium_mg", "magnesium"),
   ("vitamin_c_total_ascorbic_acid", "vitamin C"),
   ("vitamin_d3_cholecalciferol", "vitamin D"),
   ("vitamin_b12", "vitamin B12")]

/-- The header part of `create_food_text`: description (appended raw,
exactly as the source appends the value itself), common name, category
and brand (each through an f-string, hence stringified). -/
def headerParts (row : FoodRow) : List PyVal :=
  (match row "food_description" with
    | some v => [v]
    | none => [])
  ++ (match row "food_common_name" with
    | some v => [PyVal.str ("Also known as: " ++ pyStr v)]
    | none => [])
  ++ (match row "category" with
    | some v => [PyVal.str ("Category: " ++ pyStr v)]
    | none => [])
  ++ (match row "brand_name" with
    | some v => [PyVal.str ("Brand: " ++ pyStr v)]
    | none => [])

/-- The nutrient loop of `create_food_text`, rendered as recursion over
the remaining columns.  `col in row and pd.notna(row[col]) and
row[col] > 0`: an absent-or-NaN value is skipped, a string value makes
the comparison with `0` raise `TypeError`, a positive number is
formatted and appended. -/
def nutrientLoopAux (row : FoodRow) : List (String × String) → Except PyError (List String)
  | [] => Except.ok []
  | cn :: rest =>
    match row cn.1 with
    | some (PyVal.num q) =>
      (nutrientLoopAux row rest).map fun ns =>
        if 0 < q then fmtEntry cn.2 q :: ns else ns
    | some (PyVal.str _) => Except.error PyError.typeError
    | none => nutrientLoopAux row rest

/-- `mapE f l`: run `f` left to right, stopping at the first error
(Python list comprehensions and `Series.apply` behave this way). -/
def mapE (f : α → Except ε β) : List α → Except ε (List β)
  | [] => Except.ok []
  | x :: xs => do
    let y ← f x
    let ys ← mapE f xs
    Except.ok (y :: ys)

/-- Python `sep.join(parts)`: raises `TypeError` when an element is not
a string. -/
def pyJoin (sep : String) (parts : List PyVal) : Except PyError String := do
  let ss ← mapE
    (fun v =>
      match v with
      | PyVal.str s => Except.ok s
      | PyVal.num _ => Except.error PyError.typeError)
    parts
  Except.ok (String.intercalate sep ss)

/-- `create_food_text` of `generate-embeddings.py`.  The source builds
the header parts, runs the nutrient loop, appends the (at most five)
collected nutrient entries as one segment when any were collected, and
joins everything with a bar delimiter. -/
def create_food_text (row : FoodRow) : Except PyError String := do
  let nutrients ← nutrientLoopAux row nutrient_cols
  let parts := headerParts row
    ++ (if nutrients.isEmpty then []
        else [PyVal.str ("Nutrients per 100g: "
                ++ String.intercalate ", " (nutrients.take 5))])
  pyJoin " | " parts

/-- Whether an optional value is absent or a number (so the nutrient
comparison cannot raise). -/
def isNumOrNone : Option PyVal → Bool
  | none => true
  | some (PyVal.num _) => true
  | some (PyVal.str _) => false

/-- Whether an optional value is absent or a string (so the final join
cannot raise on the raw description). -/
def isStrOrNone : Option PyVal → Bool
  | none => true
  | some (PyVal.str _) => true
  | some (PyVal.num _) => false

/-- The columns `create_food_text` reads. -/
def trackedCols : List String :=
  ["food_description", "food_common_name", "category", "brand_name"]
    ++ nutrient_cols.map Prod.fst

/-- A row whose tracked fields are well typed: the description, if
present, is a string, and every tracked nutrient, if present, is a
number. -/
def wellTypedRow (row : FoodRow) : Bool :=
  isStrOrNone (row "food_description")
    && nutrient_cols.all fun cn => isNumOrNone (row cn.1)

/-- The qualifying nutrient entries, stated from the specification:
over the fixed priority list, in that order, the entries whose value is
present and strictly positive, each formatted to two decimals with the
unit suffix. -/
def qualifyingNutrients (row : FoodRow) : List String :=
  nutrient_cols.filterMap fun cn =>
    match row cn.1 with
    | some (PyVal.num q) => if 0 < q then some (fmtEntry cn.2 q) else none
    | _ => none

/-! ## Embedding pipeline (`generate-embeddings.py`, `main` and the remote provider) -/

/-- Python truthiness of `os.environ.get(...)`: false for an unset
variable (`None`) and for the empty string. -/
def pyTruthyStr : Option String → Bool
  | none => false
  | some s => s ≠ ""

/-- The batches the loop `for i in range(0, len(texts), batch_size)`
sends: consecutive slices `texts[i:i+batch_size]`, rendered as
recursion on the remaining suffix.  Only meaningful for a positive
batch size (Python raises `ValueError` on a zero step). -/
def batchCalls (batch_size : ℕ) (texts : List String) : List (List String) :=
  if texts = [] ∨ batch_size = 0 then []
  else texts.take batch_size :: batchCalls batch_size (texts.drop batch_size)
termination_by texts.length
decreasing_by
  simp only [List.length_drop]
  rename_i h
  rcases not_or.mp h with ⟨h1, h2⟩
  have : 0 < texts.length := List.length_pos.mpr h1
  omega

/-- `generate_openai_embeddings`: exit with status 1 (modelled as an
error) when the credential is unset or empty, otherwise send the
batches to the service (`oracle`) and concatenate the per-batch
results in batch order. -/
def generate_openai_embeddings (apiKey : Option String)
    (oracle : List String → List (List ℚ))
    (texts : List String) (batch_size : ℕ) : Except Unit (List (List ℚ)) :=
  if pyTruthyStr apiKey = false then Except.error ()
  else Except.ok ((batchCalls batch_size texts).map oracle).flatten

/-- The network calls `generate_openai_embeddings` issues: none when it
exits on the missing credential, one per batch otherwise. -/
def openai_calls (apiKey : Option String) (texts : List String)
    (batch_size : ℕ) : List (List String) :=
  if pyTruthyStr apiKey = false then [] else batchCalls batch_size texts

/-- pandas `df.head(n)`: the first `n` rows, and for a negative `n` all
rows but the last `|n|`. -/
def pyHead (n : ℤ) (df : List α) : List α :=
  if 0 ≤ n then df.take n.toNat else df.take (df.length - n.natAbs)

/-- `if args.limit: df = df.head(args.limit)`: the guard is Python
truthiness, so `None` and `0` both leave the dataframe untouched. -/
def applyLimit (limit : Option ℤ) (df : List α) : List α :=
  match limit with
  | none => df
  | some n => if n = 0 then df else pyHead n df

/-- The command-line arguments of the embedding pipeline that decide
its control flow (`--input` is abstracted to whether the path exists). -/
structure Args where
  input_exists : Bool
  limit : Option ℤ
  batch_size : ℕ
  is_local : Bool

/-- One element of the output document's `items` list. -/
structure EmbedItem where
  fdc_id : String
  text : String
  embedding : List ℚ
deriving DecidableEq

/-- The output document `usda_embeddings.json`. -/
structure EmbedOutput where
  model : String
  count : ℕ
  dimension : ℕ
  items : List EmbedItem
deriving DecidableEq

/-- What one run of the embedding pipeline did: the exit status when it
exited early (`none` = ran to completion, process status 0), whether
the output directory was created, the batches sent over the network,
and the document written (if any). -/
structure RunTrace where
  exitCode : Option ℕ
  madeOutputDir : Bool
  calls : List (List String)
  written : Option EmbedOutput
deriving DecidableEq

/-- `str(row.get('fdc_id', i))`: the row's identifier, falling back to
the row index. -/
def fdcIdOf (df : List FoodRow) (i : ℕ) : String :=
  match (df.get? i).bind (fun r => r "fdc_id") with
  | some v => pyStr v
  | none => toString i

/-- The `items` list comprehension of `main`: for each row index, the
identifier, `texts[i]` and `embeddings[i]` (an out-of-range index
raises `IndexError`). -/
def buildItems (df : List FoodRow) (texts : List String)
    (embeddings : List (List ℚ)) : Except PyError (List EmbedItem) :=
  mapE
    (fun i =>
      match texts.get? i, embeddings.get? i with
      | some t, some e =>
        Except.ok { fdc_id := fdcIdOf df i, text := t, embedding := e }
      | _, _ => Except.error PyError.indexError)
    (List.range df.length)

/-- The tail of `main` after the embeddings exist: assemble the output
document (`dimension` is `len(embeddings[0]) if embeddings else 0`)
and write it. -/
def finishRun (df : List FoodRow) (texts : List String)
    (embeddings : List (List ℚ)) (model : String)
    (calls : List (List String)) : RunTrace :=
  match buildItems df texts embeddings with
  | Except.error _ =>
    { exitCode := some 1, madeOutputDir := true, calls := calls, written := none }
  | Except.ok items =>
    { exitCode := none, madeOutputDir := true, calls := calls,
      written := some
        { model := model,
          count := embeddings.length,
          dimension := match embeddings with
            | [] => 0
            | e :: _ => e.length,
          items := items } }

/-- `main` of `generate-embeddings.py`: validate the input path (exit 1
before creating the output directory when missing), create the output
directory, truncate per `--limit`, build the per-row texts (an
exception exits with status 1), run the chosen provider, assemble and
write the document.  `oracle` answers the remote batches, `localEnc`
the one-shot local encoding. -/
def runMain (args : Args) (apiKey : Option String)
    (oracle : List String → List (List ℚ))
    (localEnc : List String → List (List ℚ))
    (df : List FoodRow) : RunTrace :=
  if args.input_exists = false then
    { exitCode := some 1, madeOutputDir := false, calls := [], written := none }
  else
    match mapE create_food_text (applyLimit args.limit df) with
    | Except.error _ =>
      { exitCode := some 1, madeOutputDir := true, calls := [], written := none }
    | Except.ok texts =>
      if args.is_local then
        finishRun (applyLimit args.limit df) texts (localEnc texts)
          "all-MiniLM-L6-v2" []
      else
        match generate_openai_embeddings apiKey oracle texts args.batch_size with
        | Except.error _ =>
          { exitCode := some 1, madeOutputDir := true,
            calls := openai_calls apiKey texts args.batch_size, written := none }
        | Except.ok embeddings =>
          finishRun (applyLimit args.limit df) texts embeddings
            "text-embedding-3-small" (openai_calls apiKey texts args.batch_size)

/-! ## Supplement query tool (`query-nih-dsld.py`) -/

/-- A query-string value: Python passes strings and integers to
`requests`. -/
inductive QParam where
  | s (v : String)
  | i (v : ℤ)
deriving DecidableEq

/-- One HTTP GET as the script issues it: url, query parameters in
order, timeout in seconds. -/
structure HttpRequest where
  url : String
  params : List (String × QParam)
  timeout : ℕ
deriving DecidableEq

/-- `DSLD_BASE_URL` of `query-nih-dsld.py`. -/
def DSLD_BASE_URL : String := "https://api.ods.od.nih.gov/dsld/v9"

/-- `search_products`: browse endpoint with a `name` parameter, a page
size and page 1. -/
def search_products (query : String) (limit : ℤ := 10) : HttpRequest :=
  { url := DSLD_BASE_URL ++ "/browse",
    params := [("name", QParam.s query), ("pagesize", QParam.i limit),
               ("page", QParam.i 1)],
    timeout := 30 }

/-- `search_by_ingredient`: browse endpoint with an `ingredient`
parameter, a page size and page 1. -/
def search_by_ingredient (ingredient : String) (limit : ℤ := 10) : HttpRequest :=
  { url := DSLD_BASE_URL ++ "/browse",
    params := [("ingredient", QParam.s ingredient), ("pagesize", QParam.i limit),
               ("page", QParam.i 1)],
    timeout := 30 }

/-- `search_by_brand`: browse endpoint with a `brandname` parameter, a
page size and page 1. -/
def search_by_brand (brand : String) (limit : ℤ := 10) : HttpRequest :=
  { url := DSLD_BASE_URL ++ "/browse",
    params := [("brandname", QParam.s brand), ("pagesize", QParam.i limit),
               ("page", QParam.i 1)],
    timeout := 30 }

/-- `get_product_label`: the label endpoint with the id in the path and
no query parameters (and no limit argument at all). -/
def get_product_label (dsld_id : String) : HttpRequest :=
  { url := DSLD_BASE_URL ++ "/label/" ++ dsld_id,
    params := [],
    timeout := 30 }

/-- `product.get(key, 'N/A')` rendered through an f-string. -/
def getOrNA (product : String → Option PyVal) (key : String) : String :=
  match product key with
  | some v => pyStr v
  | none => "N/A"

/-- The lines `format_product` accumulates: the four fixed lines with
the `N/A` placeholder, then a Serving line exactly when `serving_size`
is a key of the dictionary. -/
def format_product_lines (product : String → Option PyVal) : List String :=
  ["  ID: " ++ getOrNA product "dsld_id",
   "  Name: " ++ getOrNA product "product_name",
   "  Brand: " ++ getOrNA product "brand_name",
   "  Type: " ++ getOrNA product "product_type"]
  ++ (match product "serving_size" with
      | some v => ["  Serving: " ++ pyStr v]
      | none => [])

/-- `format_product`: the accumulated lines joined with a newline. -/
def format_product (product : String → Option PyVal) : String :=
  String.intercalate "\n" (format_product_lines product)

/-- Python truthiness of an argparse string option: `None` (flag not
supplied) and the empty string are falsy. -/
def truthyOpt : Option String → Bool
  | none => false
  | some s => s ≠ ""

/-- The command-line arguments of the query tool. -/
structure QArgs where
  product : Option String
  ingredient : Option String
  brand : Option String
  label : Option String
  limit : ℤ := 10
  json : Bool := false

/-- The HTTP requests one run of the query tool issues: none when no
search flag is truthy (help text, exit 0), otherwise exactly the one
request of the first truthy flag in the dispatch order of `main`
(label, then ingredient, then brand, then product). -/
def issuedRequests (a : QArgs) : List HttpRequest :=
  if (truthyOpt a.product || truthyOpt a.ingredient || truthyOpt a.brand
      || truthyOpt a.label) = false then []
  else if truthyOpt a.label then [get_product_label (a.label.getD "")]
  else if truthyOpt a.ingredient then
    [search_by_ingredient (a.ingredient.getD "") a.limit]
  else if truthyOpt a.brand then [search_by_brand (a.brand.getD "") a.limit]
  else [search_products (a.product.getD "") a.limit]

/-! ## Concrete inputs used by witnesses and counterexamples -/

/-- A well-behaved embedding service: one one-dimensional vector per
input text. -/
def oracleConst : List String → List (List ℚ) := fun b => b.map fun _ => [1]

/-- A row whose `protein` column holds a string: `pd.notna` passes and
the comparison with `0` raises `TypeError`. -/
def rowBad : FoodRow := fun c =>
  if c = "protein" then some (PyVal.str "high") else none

/-- A row with a description and all nine tracked nutrients positive. -/
def rowNine : FoodRow := fun c =>
  if c = "food_description" then some (PyVal.str "Oats")
  else if c = "protein" then some (PyVal.num 13)
  else if c = "total_lipid_fat" then some (PyVal.num 7)
  else if c = "carbohydrate_by_difference" then some (PyVal.num 68)
  else if c = "calcium_ca" then some (PyVal.num 52)
  else if c = "iron_fe" then some (PyVal.num 4)
  else if c = "magnesium_mg" then some (PyVal.num 138)
  else if c = "vitamin_c_total_ascorbic_acid" then some (PyVal.num 1)
  else if c = "vitamin_d3_cholecalciferol" then some (PyVal.num 2)
  else if c = "vitamin_b12" then some (PyVal.num 3)
  else none

/-- A product dictionary with no fields at all. -/
def pNone : String → Option PyVal := fun _ => none

/-- Query arguments supplying `--label` with an empty string and
`--ingredient` with a real value. -/
def qcex : QArgs := QArgs.mk none (some "vitamin d") none (some "") 10 false

/-- Query arguments supplying every search flag with a non-empty value. -/
def qwit : QArgs :=
  QArgs.mk (some "fish oil") (some "vitamin d") (some "nature made")
    (some "123456") 10 false

/-! ## Helper lemmas -/

theorem exceptOk_bind (a : α) (f : α → Except ε β) :
    (Except.ok a : Except ε α) >>= f = f a := rfl

theorem exceptMap_ok (f : α → β) (a : α) :
    Except.map f (Except.ok a : Except ε α) = Except.ok (f a) := rfl

theorem mapE_ok {f : α → Except ε β} :
    ∀ {l : List α}, (∀ x ∈ l, ∃ y, f x = Except.ok y) →
      ∃ ys, mapE f l = Except.ok ys ∧ ys.length = l.length := by
  intro l
  induction l with
  | nil => intro _; exact ⟨[], rfl, rfl⟩
  | cons x xs ih =>
    intro h
    obtain ⟨y, hy⟩ := h x (by simp)
    obtain ⟨ys, hys, hlen⟩ := ih fun a ha => h a (by simp [ha])
    refine ⟨y :: ys, ?_, by simp [hlen]⟩
    simp [mapE, hy, hys, exceptOk_bind]

theorem nutrientLoop_eq (row : FoodRow) :
    ∀ cols : List (String × String),
      (∀ cn ∈ cols, isNumOrNone (row cn.1) = true) →
      nutrientLoopAux row cols = Except.ok
        (cols.filterMap fun cn =>
          match row cn.1 with
          | some (PyVal.num q) => if 0 < q then some (fmtEntry cn.2 q) else none
          | _ => none) := by
  intro cols
  induction cols with
  | nil => intro _; rfl
  | cons cn rest ih =>
    intro h
    have hrest := ih fun c hc => h c (by simp [hc])
    have hcn := h cn (by simp)
    match hv : row cn.1 with
    | some (PyVal.num q) =>
      simp [nutrientLoopAux, hv, hrest, List.filterMap_cons]
      by_cases hq : 0 < q <;> simp [hq, exceptMap_ok]
    | some (PyVal.str s) => simp [isNumOrNone, hv] at hcn
    | none => simp [nutrientLoopAux, hv, hrest, List.filterMap_cons]

theorem headerParts_str (row : FoodRow)
    (h : isStrOrNone (row "food_description") = true) :
    ∀ v ∈ headerParts row, ∃ s, v = PyVal.str s := by
  intro v hv
  unfold headerParts at hv
  match hd : row "food_description" with
  | some (PyVal.str s) =>
    rw [hd] at hv
    rcases List.mem_append.mp hv with h1 | h1
    · rcases List.mem_append.mp h1 with h2 | h2
      · rcases List.mem_append.mp h2 with h3 | h3
        · exact ⟨s, by simpa using h3⟩
        · revert h3
          match row "food_common_name" with
          | some v2 => intro h3; exact ⟨_, by simpa using h3⟩
          | none => intro h3; simp at h3
      · revert h2
        match row "category" with
        | some v2 => intro h2; exact ⟨_, by simpa using h2⟩
        | none => intro h2; simp at h2
    · revert h1
      match row "brand_name" with
      | some v2 => intro h1; exact ⟨_, by simpa using h1⟩
      | none => intro h1; simp at h1
  | some (PyVal.num q) => simp [isStrOrNone, hd] at h
  | none =>
    rw [hd] at hv
    rcases List.mem_append.mp hv with h1 | h1
    · rcases List.mem_append.mp h1 with h2 | h2
      · rcases List.mem_append.mp h2 with h3 | h3
        · simp at h3
        · revert h3
          match row "food_common_name" with
          | some v2 => intro h3; exact ⟨_, by simpa using h3⟩
          | none => intro h3; simp at h3
      · revert h2
        match row "category" with
        | some v2 => intro h2; exact ⟨_, by simpa using h2⟩
        | none => intro h2; simp at h2
    · revert h1
      match row "brand_name" with
      | some v2 => intro h1; exact ⟨_, by simpa using h1⟩
      | none => intro h1; simp at h1

theorem pyJoin_ok (sep : String) (parts : List PyVal)
    (h : ∀ v ∈ parts, ∃ s, v = PyVal.str s) :
    ∃ out, pyJoin sep parts = Except.ok out := by
  obtain ⟨ss, hss, _⟩ :=
    mapE_ok (f := fun v =>
      match v with
      | PyVal.str s => Except.ok s
      | PyVal.num _ => Except.error PyError.typeError)
      (l := parts)
      (by intro v hv; obtain ⟨s, rfl⟩ := h v hv; exact ⟨s, rfl⟩)
  exact ⟨String.intercalate sep ss, by simp [pyJoin, hss, exceptOk_bind]⟩

theorem batchCalls_nil (bs : ℕ) : batchCalls bs [] = [] := by
  rw [batchCalls]; simp

theorem batchCalls_flatten_aux (bs : ℕ) (hbs : 0 < bs) :
    ∀ n (texts : List String), texts.length ≤ n →
      (batchCalls bs texts).flatten = texts := by
  intro n
  induction n with
  | zero =>
    intro texts h
    have : texts = [] := List.length_eq_zero.mp (Nat.le_zero.mp h)
    subst this
    simp [batchCalls_nil]
  | succ n ih =>
    intro texts h
    by_cases htx : texts = []
    · subst htx; simp [batchCalls_nil]
    · rw [batchCalls, if_neg (by push_neg; exact ⟨htx, by omega⟩)]
      simp only [List.flatten_cons]
      rw [ih (texts.drop bs) (by simp only [List.length_drop]; omega)]
      exact List.take_append_drop bs texts

theorem batchCalls_flatten (bs : ℕ) (hbs : 0 < bs) (texts : List String) :
    (batchCalls bs texts).flatten = texts :=
  batchCalls_flatten_aux bs hbs texts.length texts le_rfl

theorem batchCalls_mem_aux (bs : ℕ) (hbs : 0 < bs) :
    ∀ n (texts : List String), texts.length ≤ n →
      ∀ c ∈ batchCalls bs texts, c.length ≤ bs ∧ c ≠ [] := by
  intro n
  induction n with
  | zero =>
    intro texts h c hc
    have : texts = [] := List.length_eq_zero.mp (Nat.le_zero.mp h)
    subst this
    simp [batchCalls_nil] at hc
  | succ n ih =>
    intro texts h c hc
    by_cases htx : texts = []
    · subst htx; simp [batchCalls_nil] at hc
    · rw [batchCalls, if_neg (by push_neg; exact ⟨htx, by omega⟩)] at hc
      rcases List.mem_cons.mp hc with rfl | hc
      · constructor
        · rw [List.length_take]
          exact Nat.min_le_left bs texts.length
        · have hpos : 0 < texts.length := List.length_pos.mpr htx
          intro hnil
          have : (texts.take bs).length = 0 := by rw [hnil]; rfl
          simp only [List.length_take] at this
          omega
      · exact ih (texts.drop bs) (by simp only [List.length_drop]; omega) c hc

theorem batchCalls_mem (bs : ℕ) (hbs : 0 < bs) (texts : List String) :
    ∀ c ∈ batchCalls bs texts, c.length ≤ bs ∧ c ≠ [] :=
  batchCalls_mem_aux bs hbs texts.length texts le_rfl

theorem flatten_map_length (oracle : List String → List (List ℚ))
    (hor : ∀ b, (oracle b).length = b.length) :
    ∀ bl : List (List String),
      ((bl.map oracle).flatten).length = bl.flatten.length := by
  intro bl
  induction bl with
  | nil => rfl
  | cons c cs ih =>
    simp only [List.map_cons, List.flatten_cons, List.length_append, hor, ih]

theorem generate_ok (apiKey : Option String)
    (oracle : List String → List (List ℚ)) (texts : List String) (bs : ℕ)
    (hkey : pyTruthyStr apiKey = true) :
    generate_openai_embeddings apiKey oracle texts bs =
      Except.ok ((batchCalls bs texts).map oracle).flatten := by
  simp [generate_openai_embeddings, hkey]

theorem generate_length
    (oracle : List String → List (List ℚ)) (texts : List String) (bs : ℕ)
    (hbs : 0 < bs) (hor : ∀ b, (oracle b).length = b.length) :
    (((batchCalls bs texts).map oracle).flatten).length = texts.length := by
  rw [flatten_map_length oracle hor, batchCalls_flatten bs hbs]

theorem applyLimit_nil (limit : Option ℤ) : applyLimit limit ([] : List α) = [] := by
  cases limit with
  | none => rfl
  | some n =>
    simp only [applyLimit, pyHead]
    split
    · rfl
    · split <;> simp

theorem applyLimit_pos (N : ℤ) (hN : 0 < N) (df : List α) :
    applyLimit (some N) df = df.take N.toNat := by
  simp only [applyLimit, pyHead]
  rw [if_neg (by omega), if_pos (by omega)]

theorem buildItems_ok (df : List FoodRow) (texts : List String)
    (embeddings : List (List ℚ))
    (h1 : texts.length = df.length) (h2 : embeddings.length = df.length) :
    ∃ items, buildItems df texts embeddings = Except.ok items ∧
      items.length = df.length := by
  obtain ⟨items, hi, hlen⟩ := mapE_ok
    (f := fun i =>
      match texts.get? i, embeddings.get? i with
      | some t, some e => Except.ok (EmbedItem.mk (fdcIdOf df i) t e)
      | _, _ => Except.error PyError.indexError)
    (l := List.range df.length)
    (by
      intro i hi
      have hilt : i < df.length := List.mem_range.mp hi
      obtain ⟨t, ht⟩ : ∃ t, texts.get? i = some t := by
        cases h : texts.get? i with
        | none =>
          exfalso
          have := List.get?_eq_none.mp h
          omega
        | some t => exact ⟨t, rfl⟩
      obtain ⟨e, he⟩ : ∃ e, embeddings.get? i = some e := by
        cases h : embeddings.get? i with
        | none =>
          exfalso
          have := List.get?_eq_none.mp h
          omega
        | some e => exact ⟨e, rfl⟩
      refine ⟨EmbedItem.mk (fdcIdOf df i) t e, ?_⟩
      simp only [ht, he])
  exact ⟨items, hi, by rw [List.length_range] at hlen; exact hlen⟩

theorem create_food_text_eq (row : FoodRow) (ns : List String)
    (h : nutrientLoopAux row nutrient_cols = Except.ok ns) :
    create_food_text row = pyJoin " | " (headerParts row
      ++ (if ns.isEmpty then []
          else [PyVal.str ("Nutrients per 100g: "
                  ++ String.intercalate ", " (ns.take 5))])) := by
  simp [create_food_text, h, exceptOk_bind]

theorem wellTypedRow_num (row : FoodRow) (h : wellTypedRow row = true) :
    ∀ cn ∈ nutrient_cols, isNumOrNone (row cn.1) = true := by
  unfold wellTypedRow at h
  rw [Bool.and_eq_true] at h
  exact fun cn hcn => List.all_eq_true.mp h.2 cn hcn

theorem create_food_text_ok (row : FoodRow) (h : wellTypedRow row = true) :
    ∃ s, create_food_text row = Except.ok s := by
  have hdesc : isStrOrNone (row "food_description") = true := by
    unfold wellTypedRow at h
    rw [Bool.and_eq_true] at h
    exact h.1
  have hloop := nutrientLoop_eq row nutrient_cols (wellTypedRow_num row h)
  rw [create_food_text_eq row _ hloop]
  apply pyJoin_ok
  intro v hv
  rcases List.mem_append.mp hv with h1 | h1
  · exact headerParts_str row hdesc v h1
  · by_cases hq : (qualifyingNutrients row).isEmpty
    · rw [if_pos (by exact hq)] at h1
      simp at h1
    · rw [if_neg (by exact hq)] at h1
      exact ⟨_, by simpa using h1⟩

theorem create_food_text_missing (row : FoodRow)
    (hmiss : ∀ c ∈ trackedCols, row c = none) :
    create_food_text row = Except.ok "" := by
  have h1 : row "food_description" = none := hmiss _ (by simp [trackedCols])
  have h2 : row "food_common_name" = none := hmiss _ (by simp [trackedCols])
  have h3 : row "category" = none := hmiss _ (by simp [trackedCols])
  have h4 : row "brand_name" = none := hmiss _ (by simp [trackedCols])
  have hnumNone : ∀ cn ∈ nutrient_cols, row cn.1 = none := by
    intro cn hcn
    exact hmiss cn.1 (by
      simp only [trackedCols, List.mem_append]
      exact Or.inr (List.mem_map.mpr ⟨cn, hcn, rfl⟩))
  have hnum : ∀ cn ∈ nutrient_cols, isNumOrNone (row cn.1) = true := by
    intro cn hcn
    rw [hnumNone cn hcn]
    rfl
  have hq : (nutrient_cols.filterMap fun cn =>
      match row cn.1 with
      | some (PyVal.num q) => if 0 < q then some (fmtEntry cn.2 q) else none
      | _ => none) = [] := by
    rw [List.filterMap_eq_nil_iff]
    intro cn hcn
    rw [hnumNone cn hcn]
  rw [create_food_text_eq row _ (by rw [nutrientLoop_eq row nutrient_cols hnum, hq])]
  simp only [List.isEmpty_nil, if_pos]
  rw [show headerParts row = [] by simp [headerParts, h1, h2, h3, h4]]
  rfl

theorem batchCalls_cons (bs : ℕ) (texts : List String)
    (h1 : texts ≠ []) (h2 : bs ≠ 0) :
    batchCalls bs texts = texts.take bs :: batchCalls bs (texts.drop bs) := by
  rw [batchCalls, if_neg (by push_neg; exact ⟨h1, h2⟩)]

theorem runMain_ok_openai (args : Args) (apiKey : Option String)
    (oracle localEnc : List String → List (List ℚ)) (df : List FoodRow)
    (texts : List String)
    (hin : args.input_exists = true) (hloc : args.is_local = false)
    (hkey : pyTruthyStr apiKey = true)
    (hmap : mapE create_food_text (applyLimit args.limit df) = Except.ok texts) :
    runMain args apiKey oracle localEnc df =
      finishRun (applyLimit args.limit df) texts
        ((batchCalls args.batch_size texts).map oracle).flatten
        "text-embedding-3-small"
        (batchCalls args.batch_size texts) := by
  unfold runMain
  rw [if_neg (by simp [hin]), hmap]
  simp only [hloc, if_neg Bool.false_ne_true,
    generate_ok apiKey oracle texts args.batch_size hkey]
  simp [openai_calls, hkey]

/-! ## Claim theorems -/

/-- C4: for every food record whose tracked nutrient fields are numeric
or missing, the nutrient loop collects exactly the present, strictly
positive nutrients in the fixed nine-element priority order, formatted
to two decimals with the unit suffix; the output carries a single
nutrient segment holding the first at most five of them, and carries no
such segment when no tracked nutrient qualifies. -/
theorem nutrient_segment_spec (row : FoodRow)
    (h : (nutrient_cols.all fun cn => isNumOrNone (row cn.1)) = true) :
    nutrientLoopAux row nutrient_cols = Except.ok (qualifyingNutrients row) ∧
    (qualifyingNutrients row = [] →
      create_food_text row = pyJoin " | " (headerParts row)) ∧
    (qualifyingNutrients row ≠ [] →
      create_food_text row = pyJoin " | " (headerParts row
        ++ [PyVal.str ("Nutrients per 100g: "
              ++ String.intercalate ", " ((qualifyingNutrients row).take 5))])) := by
  have hnum : ∀ cn ∈ nutrient_cols, isNumOrNone (row cn.1) = true :=
    List.all_eq_true.mp h
  have hloop : nutrientLoopAux row nutrient_cols =
      Except.ok (qualifyingNutrients row) :=
    nutrientLoop_eq row nutrient_cols hnum
  refine ⟨hloop, ?_, ?_⟩
  · intro hq
    rw [create_food_text_eq row _ hloop, hq]
    simp
  · intro hq
    rw [create_food_text_eq row _ hloop,
      if_neg (by simp [List.isEmpty_iff, hq])]

/-- C4 witness: the theorem applied to the row with all nine tracked
nutrients positive. -/
theorem nutrient_segment_spec_witness :
    (nutrient_cols.all fun cn => isNumOrNone (rowNine cn.1)) = true ∧
    nutrientLoopAux rowNine nutrient_cols =
      Except.ok (qualifyingNutrients rowNine) ∧
    create_food_text rowNine = pyJoin " | " (headerParts rowNine
      ++ [PyVal.str ("Nutrients per 100g: "
            ++ String.intercalate ", " ((qualifyingNutrients rowNine).take 5))]) :=
  ⟨by decide, (nutrient_segment_spec rowNine (by decide)).1,
   (nutrient_segment_spec rowNine (by decide)).2.2 (by decide)⟩

/-- C8 counterexample: a row whose `protein` field holds a string makes
`create_food_text` raise `TypeError` (Python compares the string with
`0`), so the builder does not return a string for every record with
malformed fields. -/
theorem create_food_text_raises :
    create_food_text rowBad = Except.error PyError.typeError := rfl

/-- C8 amended: for every food record whose present tracked fields are
well typed (description a string, nutrients numeric), the builder
returns a string, and the empty string when every tracked field is
missing. -/
theorem create_food_text_total (row : FoodRow) (h : wellTypedRow row = true) :
    ∃ s, create_food_text row = Except.ok s ∧
      ((trackedCols.all fun c => (row c).isNone) = true → s = "") := by
  obtain ⟨s, hs⟩ := create_food_text_ok row h
  refine ⟨s, hs, fun hm => ?_⟩
  have hmiss : ∀ c ∈ trackedCols, row c = none := by
    intro c hc
    exact Option.isNone_iff_eq_none.mp (List.all_eq_true.mp hm c hc)
  have h0 := create_food_text_missing row hmiss
  rw [hs] at h0
  exact Except.ok.inj h0

/-- C8 witness: the theorem applied to the all-missing row. -/
theorem create_food_text_total_witness :
    wellTypedRow emptyRow = true ∧
    ∃ s, create_food_text emptyRow = Except.ok s ∧
      ((trackedCols.all fun c => (emptyRow c).isNone) = true → s = "") :=
  ⟨by decide, create_food_text_total emptyRow (by decide)⟩

/-- C3: with a positive batch size and a truthy credential, assuming
the service returns one vector per text of each batch, the remote
provider issues one call per batch, the batches partition the input in
order into nonempty chunks of at most the batch size, and the result is
the in-order concatenation of the per-batch answers, with one output
vector per input text. -/
theorem generate_openai_embeddings_spec (apiKey : Option String)
    (oracle : List String → List (List ℚ)) (texts : List String) (bs : ℕ)
    (hbs : 0 < bs) (hkey : pyTruthyStr apiKey = true)
    (hor : ∀ b, (oracle b).length = b.length) :
    openai_calls apiKey texts bs = batchCalls bs texts ∧
    (batchCalls bs texts).flatten = texts ∧
    (∀ c ∈ batchCalls bs texts, c.length ≤ bs ∧ c ≠ []) ∧
    generate_openai_embeddings apiKey oracle texts bs =
      Except.ok ((batchCalls bs texts).map oracle).flatten ∧
    (((batchCalls bs texts).map oracle).flatten).length = texts.length := by
  refine ⟨?_, batchCalls_flatten bs hbs texts, batchCalls_mem bs hbs texts,
    generate_ok apiKey oracle texts bs hkey,
    generate_length oracle texts bs hbs hor⟩
  simp [openai_calls, hkey]

/-- C3 witness: three texts in batches of two under the constant
one-vector-per-text service. -/
theorem generate_openai_embeddings_spec_witness :
    (0 < 2 ∧ pyTruthyStr (some "k") = true) ∧
    openai_calls (some "k") ["a", "b", "c"] 2 = batchCalls 2 ["a", "b", "c"] ∧
    (batchCalls 2 ["a", "b", "c"]).flatten = ["a", "b", "c"] ∧
    generate_openai_embeddings (some "k") oracleConst ["a", "b", "c"] 2 =
      Except.ok ((batchCalls 2 ["a", "b", "c"]).map oracleConst).flatten ∧
    (((batchCalls 2 ["a", "b", "c"]).map oracleConst).flatten).length = 3 := by
  have h := generate_openai_embeddings_spec (some "k") oracleConst
    ["a", "b", "c"] 2 (by decide) (by decide) (by intro b; simp [oracleConst])
  exact ⟨⟨by decide, by decide⟩, h.1, h.2.1, h.2.2.2.1, h.2.2.2.2⟩

/-- C2 counterexample: the label-detail request carries no query
parameters at all, so no result-count limit is applied as a page-size
parameter of that request. -/
theorem get_product_label_no_params :
    (get_product_label "216").params = [] := rfl

/-- C2 amended: the three search operations accept a result-count limit
defaulting to 10 and apply it as the `pagesize` query parameter; the
label-detail fetch takes no limit and issues its request with no query
parameters. -/
theorem dsld_limit_params (q ing b dsld_id : String) (l : ℤ) :
    (search_products q l).params =
      [("name", QParam.s q), ("pagesize", QParam.i l), ("page", QParam.i 1)] ∧
    (search_by_ingredient ing l).params =
      [("ingredient", QParam.s ing), ("pagesize", QParam.i l), ("page", QParam.i 1)] ∧
    (search_by_brand b l).params =
      [("brandname", QParam.s b), ("pagesize", QParam.i l), ("page", QParam.i 1)] ∧
    (search_products q).params =
      [("name", QParam.s q), ("pagesize", QParam.i 10), ("page", QParam.i 1)] ∧
    (search_by_ingredient ing).params =
      [("ingredient", QParam.s ing), ("pagesize", QParam.i 10), ("page", QParam.i 1)] ∧
    (search_by_brand b).params =
      [("brandname", QParam.s b), ("pagesize", QParam.i 10), ("page", QParam.i 1)] ∧
    (get_product_label dsld_id).params = [] :=
  ⟨rfl, rfl, rfl, rfl, rfl, rfl, rfl⟩

/-- C5: the formatted presenter always produces the ID, Name, Brand and
Type lines, substituting `N/A` for an absent field, and produces a
Serving line exactly when `serving_size` is present; it is a total
function, so it never raises on a missing field. -/
theorem format_product_fields (p : String → Option PyVal) :
    (format_product_lines p).get? 0 = some ("  ID: " ++ getOrNA p "dsld_id") ∧
    (format_product_lines p).get? 1 = some ("  Name: " ++ getOrNA p "product_name") ∧
    (format_product_lines p).get? 2 = some ("  Brand: " ++ getOrNA p "brand_name") ∧
    (format_product_lines p).get? 3 = some ("  Type: " ++ getOrNA p "product_type") ∧
    (p "dsld_id" = none → getOrNA p "dsld_id" = "N/A") ∧
    (p "product_name" = none → getOrNA p "product_name" = "N/A") ∧
    (p "brand_name" = none → getOrNA p "brand_name" = "N/A") ∧
    (p "product_type" = none → getOrNA p "product_type" = "N/A") ∧
    (∀ v, p "serving_size" = some v →
      format_product_lines p =
        ["  ID: " ++ getOrNA p "dsld_id", "  Name: " ++ getOrNA p "product_name",
         "  Brand: " ++ getOrNA p "brand_name", "  Type: " ++ getOrNA p "product_type",
         "  Serving: " ++ pyStr v]) ∧
    (p "serving_size" = none →
      format_product_lines p =
        ["  ID: " ++ getOrNA p "dsld_id", "  Name: " ++ getOrNA p "product_name",
         "  Brand: " ++ getOrNA p "brand_name", "  Type: " ++ getOrNA p "product_type"]) ∧
    format_product p = String.intercalate "\n" (format_product_lines p) := by
  cases hs : p "serving_size" with
  | none =>
    refine ⟨?_, ?_, ?_, ?_, fun h => by simp [getOrNA, h],
      fun h => by simp [getOrNA, h], fun h => by simp [getOrNA, h],
      fun h => by simp [getOrNA, h], ?_, ?_, rfl⟩
    · simp [format_product_lines, hs]
    · simp [format_product_lines, hs]
    · simp [format_product_lines, hs]
    · simp [format_product_lines, hs]
    · intro v hv
      exact Option.noConfusion hv
    · intro _
      simp [format_product_lines, hs]
  | some v0 =>
    refine ⟨?_, ?_, ?_, ?_, fun h => by simp [getOrNA, h],
      fun h => by simp [getOrNA, h], fun h => by simp [getOrNA, h],
      fun h => by simp [getOrNA, h], ?_, ?_, rfl⟩
    · simp [format_product_lines, hs]
    · simp [format_product_lines, hs]
    · simp [format_product_lines, hs]
    · simp [format_product_lines, hs]
    · intro v hv
      injection hv with hv
      subst hv
      simp [format_product_lines, hs]
    · intro h
      exact Option.noConfusion h

/-- C5 witness: the theorem applied to the empty product dictionary. -/
theorem format_product_fields_witness :
    (format_product_lines pNone).get? 0 = some ("  ID: " ++ getOrNA pNone "dsld_id") ∧
    getOrNA pNone "dsld_id" = "N/A" ∧
    format_product_lines pNone = ["  ID: N/A", "  Name: N/A", "  Brand: N/A", "  Type: N/A"] := by
  have h := format_product_fields pNone
  refine ⟨h.1, h.2.2.2.2.1 rfl, ?_⟩
  have h10 := h.2.2.2.2.2.2.2.2.2.1 rfl
  simpa [getOrNA, pNone] using h10

/-- C9 counterexample: with `--label` supplied as the empty string and
`--ingredient` supplied non-empty, the tool executes the ingredient
search, not the label fetch demanded by the claimed label-first
precedence over supplied flags. -/
theorem query_precedence_counterexample :
    issuedRequests qcex = [search_by_ingredient "vitamin d" 10] ∧
    search_by_ingredient "vitamin d" 10 ≠ get_product_label "" := by
  refine ⟨by decide, by decide⟩

/-- C9 amended: among the search flags supplied with a non-empty value,
exactly one operation is executed, chosen by the fixed precedence order
label, then ingredient, then brand, then product; at most one HTTP
request is ever issued. -/
theorem query_dispatch_precedence (a : QArgs) :
    (truthyOpt a.label = true →
      issuedRequests a = [get_product_label (a.label.getD "")]) ∧
    (truthyOpt a.label = false → truthyOpt a.ingredient = true →
      issuedRequests a = [search_by_ingredient (a.ingredient.getD "") a.limit]) ∧
    (truthyOpt a.label = false → truthyOpt a.ingredient = false →
      truthyOpt a.brand = true →
      issuedRequests a = [search_by_brand (a.brand.getD "") a.limit]) ∧
    (truthyOpt a.label = false → truthyOpt a.ingredient = false →
      truthyOpt a.brand = false → truthyOpt a.product = true →
      issuedRequests a = [search_products (a.product.getD "") a.limit]) ∧
    (issuedRequests a).length ≤ 1 := by
  refine ⟨?_, ?_, ?_, ?_, ?_⟩
  · intro h1
    simp [issuedRequests, h1]
  · intro h1 h2
    simp [issuedRequests, h1, h2]
  · intro h1 h2 h3
    simp [issuedRequests, h1, h2, h3]
  · intro h1 h2 h3 h4
    simp [issuedRequests, h1, h2, h3, h4]
  · unfold issuedRequests
    split
    · simp
    · split
      · simp
      · split
        · simp
        · split <;> simp

/-- C9 witness: with every search flag supplied non-empty, only the
label fetch is issued. -/
theorem query_dispatch_precedence_witness :
    truthyOpt qwit.label = true ∧
    issuedRequests qwit = [get_product_label (qwit.label.getD "")] :=
  ⟨by decide, (query_dispatch_precedence qwit).1 (by decide)⟩

/-- C6: when the `--input` path does not exist, the embedding CLI exits
with status 1 having created no output directory, written nothing and
issued no network call. -/
theorem runMain_missing_input (args : Args) (apiKey : Option String)
    (oracle localEnc : List String → List (List ℚ)) (df : List FoodRow)
    (h : args.input_exists = false) :
    runMain args apiKey oracle localEnc df =
      { exitCode := some 1, madeOutputDir := false, calls := [],
        written := none } := by
  simp [runMain, h]

/-- C6 witness: the theorem applied to concrete arguments with a
missing input path. -/
theorem runMain_missing_input_witness :
    (Args.mk false none 100 false).input_exists = false ∧
    runMain (Args.mk false none 100 false) none oracleConst oracleConst [] =
      { exitCode := some 1, madeOutputDir := false, calls := [],
        written := none } :=
  ⟨rfl, runMain_missing_input (Args.mk false none 100 false) none
    oracleConst oracleConst [] rfl⟩

/-- C7: without `--local` and with the credential unset, the embedding
CLI exits with status 1 and issues no network call, whatever the
dataset and the service would answer. -/
theorem runMain_no_credential (args : Args)
    (oracle localEnc : List String → List (List ℚ)) (df : List FoodRow)
    (hloc : args.is_local = false) :
    (runMain args none oracle localEnc df).exitCode = some 1 ∧
    (runMain args none oracle localEnc df).calls = [] := by
  unfold runMain
  by_cases hin : args.input_exists = false
  · simp [hin]
  · rw [if_neg hin]
    cases hmap : mapE create_food_text (applyLimit args.limit df) with
    | error e => simp
    | ok texts =>
      rw [hloc]
      simp [generate_openai_embeddings, openai_calls, pyTruthyStr]

/-- C7 witness: the theorem applied to concrete arguments without the
local flag and with the credential unset. -/
theorem runMain_no_credential_witness :
    (Args.mk true none 100 false).is_local = false ∧
    ((runMain (Args.mk true none 100 false) none oracleConst oracleConst
        [emptyRow]).exitCode = some 1 ∧
     (runMain (Args.mk true none 100 false) none oracleConst oracleConst
        [emptyRow]).calls = []) :=
  ⟨rfl, runMain_no_credential (Args.mk true none 100 false)
    oracleConst oracleConst [emptyRow] rfl⟩

/-- C10: on a dataset with zero rows, given an existing input, the
remote path and a truthy credential, the pipeline completes (no exit
code), issues no network call, and writes a document with count 0,
dimension 0 and an empty items list: the dimension guard never indexes
the empty embeddings list. -/
theorem runMain_empty_dataset (args : Args) (apiKey : Option String)
    (oracle localEnc : List String → List (List ℚ))
    (hin : args.input_exists = true) (hloc : args.is_local = false)
    (hkey : pyTruthyStr apiKey = true) :
    runMain args apiKey oracle localEnc [] =
      { exitCode := none, madeOutputDir := true, calls := [],
        written := some { model := "text-embedding-3-small", count := 0,
                          dimension := 0, items := [] } } := by
  have hmap : mapE create_food_text (applyLimit args.limit ([] : List FoodRow)) =
      Except.ok [] := by
    rw [applyLimit_nil]
    rfl
  rw [runMain_ok_openai args apiKey oracle localEnc [] [] hin hloc hkey hmap,
    batchCalls_nil, applyLimit_nil]
  rfl

/-- C10 witness: the theorem applied to concrete arguments and the
empty dataset. -/
theorem runMain_empty_dataset_witness :
    ((Args.mk true none 100 false).input_exists = true ∧
     (Args.mk true none 100 false).is_local = false ∧
     pyTruthyStr (some "k") = true) ∧
    runMain (Args.mk true none 100 false) (some "k") oracleConst oracleConst [] =
      { exitCode := none, madeOutputDir := true, calls := [],
        written := some { model := "text-embedding-3-small", count := 0,
                          dimension := 0, items := [] } } :=
  ⟨⟨rfl, rfl, by decide⟩,
   runMain_empty_dataset (Args.mk true none 100 false) (some "k")
     oracleConst oracleConst rfl rfl (by decide)⟩

/-- C1 counterexample: with `--limit 0` (an integer smaller than the
one-row dataset), Python truthiness skips the truncation and the
pipeline processes one row, not zero. -/
theorem limit_zero_counterexample :
    (0 : ℤ) < ([emptyRow] : List FoodRow).length ∧
    ((runMain (Args.mk true (some 0) 100 false) (some "k") oracleConst
        oracleConst [emptyRow]).written.map EmbedOutput.count) = some 1 := by
  have hbc : batchCalls 100 [""] = [[""]] := by
    rw [batchCalls_cons 100 [""] (by decide) (by decide),
      show ([""] : List String).drop 100 = [] from rfl,
      show ([""] : List String).take 100 = [""] from rfl, batchCalls_nil]
  refine ⟨by decide, ?_⟩
  rw [runMain_ok_openai (Args.mk true (some 0) 100 false) (some "k")
    oracleConst oracleConst [emptyRow] [""] rfl rfl (by decide) rfl]
  show (finishRun (applyLimit (some 0) [emptyRow]) [""]
      ((batchCalls 100 [""]).map oracleConst).flatten
      "text-embedding-3-small" (batchCalls 100 [""])).written.map
      EmbedOutput.count = some 1
  rw [hbc]
  rfl

/-- C1 amended: for every positive integer N supplied as the row limit
and smaller than the dataset size (and a well-typed dataset on the
remote path with a truthy credential, positive batch size and a
one-vector-per-text service), the dataframe is truncated to its first N
rows and the pipeline processes exactly N rows end-to-end: N texts, N
embeddings, N output items. -/
theorem limit_truncates (args : Args) (apiKey : Option String)
    (oracle localEnc : List String → List (List ℚ)) (df : List FoodRow)
    (N : ℤ)
    (hlim : args.limit = some N) (hN : 0 < N) (hlt : N < (df.length : ℤ))
    (hin : args.input_exists = true) (hloc : args.is_local = false)
    (hbs : 0 < args.batch_size) (hkey : pyTruthyStr apiKey = true)
    (hwt : ∀ row ∈ df, wellTypedRow row = true)
    (hor : ∀ b, (oracle b).length = b.length) :
    (applyLimit args.limit df).length = N.toNat ∧
    ∃ out, (runMain args apiKey oracle localEnc df).written = some out ∧
      out.count = N.toNat ∧ out.items.length = N.toNat ∧
      (runMain args apiKey oracle localEnc df).exitCode = none := by
  have hdf1 : applyLimit args.limit df = df.take N.toNat := by
    rw [hlim]
    exact applyLimit_pos N hN df
  have hlen1 : (df.take N.toNat).length = N.toNat := by
    rw [List.length_take]
    omega
  obtain ⟨texts, htexts, hlen2⟩ := mapE_ok (f := create_food_text)
    (l := df.take N.toNat)
    (fun r hr => create_food_text_ok r (hwt r (List.mem_of_mem_take hr)))
  have hmap : mapE create_food_text (applyLimit args.limit df) =
      Except.ok texts := by
    rw [hdf1]
    exact htexts
  have hE : (((batchCalls args.batch_size texts).map oracle).flatten).length
      = texts.length :=
    generate_length oracle texts args.batch_size hbs hor
  rw [runMain_ok_openai args apiKey oracle localEnc df texts hin hloc hkey hmap,
    hdf1]
  obtain ⟨items, hitems, hilen⟩ := buildItems_ok (df.take N.toNat) texts
    (((batchCalls args.batch_size texts).map oracle).flatten)
    hlen2 (hE.trans hlen2)
  simp only [finishRun, hitems]
  exact ⟨hlen1, ⟨_, rfl, hE.trans (hlen2.trans hlen1), hilen.trans hlen1, trivial⟩⟩

/-- C1 witness: the amended theorem applied with limit 1 to a two-row
dataset. -/
theorem limit_truncates_witness :
    ((0 : ℤ) < 1 ∧ (1 : ℤ) < (([emptyRow, emptyRow] : List FoodRow).length : ℤ)
      ∧ pyTruthyStr (some "k") = true) ∧
    ((applyLimit (Args.mk true (some 1) 100 false).limit
        [emptyRow, emptyRow]).length = (1 : ℤ).toNat ∧
     ∃ out, (runMain (Args.mk true (some 1) 100 false) (some "k") oracleConst
         oracleConst [emptyRow, emptyRow]).written = some out ∧
       out.count = (1 : ℤ).toNat ∧ out.items.length = (1 : ℤ).toNat ∧
       (runMain (Args.mk true (some 1) 100 false) (some "k") oracleConst
         oracleConst [emptyRow, emptyRow]).exitCode = none) :=
  ⟨⟨by decide, by decide, by decide⟩,
   limit_truncates (Args.mk true (some 1) 100 false) (some "k") oracleConst
     oracleConst [emptyRow, emptyRow] 1 rfl (by decide) (by decide) rfl rfl
     (by decide) (by decide) (by decide) (by intro b; simp [oracleConst])⟩
